import Mathlib

set_option maxHeartbeats 1000000

/- Shallow embedding of the core of bellinatiperez/evolution-api:
   the instance-group load balancer (SendMessageController rotation logic),
   the rotation store with its in-memory fallback, the InstanceGroupService
   active-instance lookup, the ExternalWebhookService circuit breaker and
   retry loop, and the alias generation of InstanceGroupController.
   Strings of the source are modelled as Lean String / List Char; machine
   timestamps (Date.now()) as Nat milliseconds. -/

/-! ## Alias generation (InstanceGroupController.transformToAlias) -/

/-- Character class `[a-z0-9-]` of the source regexes, by code point. -/
def isAliasChar (c : Char) : Bool :=
  (97 ≤ c.toNat && c.toNat ≤ 122) || (48 ≤ c.toNat && c.toNat ≤ 57) || c.toNat == 45

/-- JavaScript `\s`: whitespace code points recognised by the `/\s+/` regex. -/
def isJsWhitespace (c : Char) : Bool :=
  c.toNat == 32 || c.toNat == 9 || c.toNat == 10 || c.toNat == 11 || c.toNat == 12 ||
  c.toNat == 13 || c.toNat == 160 || c.toNat == 5760 ||
  (8192 ≤ c.toNat && c.toNat ≤ 8202) ||
  c.toNat == 8232 || c.toNat == 8233 || c.toNat == 8239 || c.toNat == 8287 ||
  c.toNat == 12288 || c.toNat == 65279

/-- `String.prototype.toLowerCase` on the ASCII range (`A-Z` maps to `a-z`).
    Non-ASCII simple case mappings are not modelled; every non-ASCII character
    is removed unchanged by the `[^a-z0-9-]` filter that follows. -/
def jsToLower (c : Char) : Char :=
  if 65 ≤ c.toNat ∧ c.toNat ≤ 90 then Char.ofNat (c.toNat + 32) else c

/-- Worker for `collapseRuns`; `inRun` records whether the previous character
    belonged to a run of characters satisfying `p`. -/
def collapseRunsAux (p : Char → Bool) (r : Char) (inRun : Bool) : List Char → List Char
  | [] => []
  | c :: cs =>
    if p c then (if inRun then [] else [r]) ++ collapseRunsAux p r true cs
    else c :: collapseRunsAux p r false cs

/-- `replace(/P+/g, r)`: every maximal run of characters satisfying `p`
    is replaced by the single character `r`. -/
def collapseRuns (p : Char → Bool) (r : Char) (l : List Char) : List Char :=
  collapseRunsAux p r false l

/-- One `^-` deletion: removes a single leading hyphen when present. -/
def dropLeadingHyphen (l : List Char) : List Char :=
  match l with
  | [] => []
  | c :: cs => if c = '-' then cs else c :: cs

/-- `replace(/^-|-$/g, '')`: removes one leading and one trailing hyphen. -/
def stripEdgeHyphens (l : List Char) : List Char :=
  (dropLeadingHyphen (dropLeadingHyphen l).reverse).reverse

/-- Predicate of the hyphen-run regex stage. -/
def isHyphen (c : Char) : Bool := c == '-'

/-- `InstanceGroupController.transformToAlias`: lowercase, whitespace runs to
    hyphens, drop `[^a-z0-9-]`, collapse hyphen runs, trim edge hyphens. -/
def transformToAlias (l : List Char) : List Char :=
  stripEdgeHyphens
    (collapseRuns isHyphen '-'
      ((collapseRuns isJsWhitespace '-' (l.map jsToLower)).filter isAliasChar))

example : transformToAlias "  Grupo de Vendas 01! ".data = "grupo-de-vendas-01".data := by decide
example : transformToAlias "---".data = "".data := by decide
example : transformToAlias "A--B".data = "a-b".data := by decide

/-! ### Lemmas about the alias pipeline -/

/-- A list with no two consecutive hyphens. -/
def NoHyphenRun (l : List Char) : Prop :=
  List.Chain' (fun a b => a ≠ '-' ∨ b ≠ '-') l

lemma mem_collapseRunsAux {p : Char → Bool} {r : Char} {c : Char} :
    ∀ {l : List Char} {b : Bool}, c ∈ collapseRunsAux p r b l → c = r ∨ c ∈ l := by
  intro l
  induction l with
  | nil => intro b h; simp [collapseRunsAux] at h
  | cons a as ih =>
    intro b h
    cases hp : p a with
    | true =>
      simp only [collapseRunsAux, hp, if_true] at h
      rcases List.mem_append.mp h with h1 | h2
      · cases b <;> simp_all
      · rcases ih h2 with h3 | h4
        · exact Or.inl h3
        · exact Or.inr (List.mem_cons_of_mem _ h4)
    | false =>
      simp only [collapseRunsAux, hp] at h
      rw [if_neg (by simp)] at h
      rcases List.mem_cons.mp h with h1 | h2
      · exact Or.inr (by simp [h1])
      · rcases ih h2 with h3 | h4
        · exact Or.inl h3
        · exact Or.inr (List.mem_cons_of_mem _ h4)

lemma collapseRunsAux_of_forall_not {p : Char → Bool} {r : Char} :
    ∀ {l : List Char} {b : Bool}, (∀ c ∈ l, p c = false) → collapseRunsAux p r b l = l := by
  intro l
  induction l with
  | nil => intro b _; rfl
  | cons a as ih =>
    intro b h
    have ha : p a = false := h a (List.mem_cons_self a as)
    simp only [collapseRunsAux, ha]
    rw [if_neg (by simp)]
    rw [ih (fun c hc => h c (List.mem_cons_of_mem a hc))]

/-- After collapsing hyphen runs, no two consecutive output characters are
    hyphens, and in the skipping state the head of the output is never a
    hyphen. -/
lemma collapseRunsAux_hyphen_chain :
    ∀ (l : List Char),
      NoHyphenRun (collapseRunsAux isHyphen '-' false l) ∧
      NoHyphenRun (collapseRunsAux isHyphen '-' true l) ∧
      (∀ c ∈ (collapseRunsAux isHyphen '-' true l).head?, c ≠ '-') := by
  intro l
  induction l with
  | nil => refine ⟨List.chain'_nil, List.chain'_nil, ?_⟩; simp [collapseRunsAux]
  | cons a as ih =>
    obtain ⟨ih1, ih2, ih3⟩ := ih
    cases hp : isHyphen a with
    | true =>
      refine ⟨?_, ?_, ?_⟩
      · simp only [collapseRunsAux, hp, if_true]
        rw [if_neg (by simp), List.singleton_append]
        exact List.chain'_cons'.mpr ⟨fun c hc => Or.inr (ih3 c hc), ih2⟩
      · simp only [collapseRunsAux, hp, if_true]
        rw [List.nil_append]
        exact ih2
      · simp only [collapseRunsAux, hp, if_true]
        rw [List.nil_append]
        exact ih3
    | false =>
      have ha : a ≠ '-' := by simpa [isHyphen] using hp
      have hstep : collapseRunsAux isHyphen '-' false (a :: as)
          = a :: collapseRunsAux isHyphen '-' false as := by
        simp only [collapseRunsAux, hp]
        rw [if_neg (by simp)]
      have hstep2 : collapseRunsAux isHyphen '-' true (a :: as)
          = a :: collapseRunsAux isHyphen '-' false as := by
        simp only [collapseRunsAux, hp]
        rw [if_neg (by simp)]
      refine ⟨?_, ?_, ?_⟩
      · rw [hstep]
        exact List.chain'_cons'.mpr ⟨fun c _ => Or.inl ha, ih1⟩
      · rw [hstep2]
        exact List.chain'_cons'.mpr ⟨fun c _ => Or.inl ha, ih1⟩
      · rw [hstep2]
        intro c hc
        simp only [List.head?_cons, Option.mem_def, Option.some.injEq] at hc
        exact hc ▸ ha

/-- Collapsing hyphen runs is the identity on lists without hyphen runs. -/
lemma collapseRunsAux_hyphen_id :
    ∀ {l : List Char}, NoHyphenRun l →
      collapseRunsAux isHyphen '-' false l = l ∧
      ((∀ c ∈ l.head?, c ≠ '-') → collapseRunsAux isHyphen '-' true l = l) := by
  intro l
  induction l with
  | nil => intro _; exact ⟨rfl, fun _ => rfl⟩
  | cons a as ih =>
    intro h
    have htail : NoHyphenRun as := (List.chain'_cons'.mp h).2
    obtain ⟨ih1, ih2⟩ := ih htail
    cases hp : isHyphen a with
    | true =>
      have ha : a = '-' := by simpa [isHyphen] using hp
      have hhead : ∀ c ∈ as.head?, c ≠ '-' := by
        intro c hc
        rcases (List.chain'_cons'.mp h).1 c hc with h1 | h2
        · exact absurd ha h1
        · exact h2
      constructor
      · simp only [collapseRunsAux, hp, if_true]
        rw [if_neg (by simp), List.singleton_append, ih2 hhead, ha]
      · intro hh
        exact absurd ha (hh a (by simp))
    | false =>
      have hstep : ∀ b, collapseRunsAux isHyphen '-' b (a :: as)
          = a :: collapseRunsAux isHyphen '-' false as := by
        intro b
        simp only [collapseRunsAux, hp]
        rw [if_neg (by simp)]
      exact ⟨by rw [hstep, ih1], fun _ => by rw [hstep, ih1]⟩

lemma isAliasChar_spec {c : Char} (h : isAliasChar c = true) :
    (97 ≤ c.toNat ∧ c.toNat ≤ 122 ∨ 48 ≤ c.toNat ∧ c.toNat ≤ 57) ∨ c.toNat = 45 := by
  simpa [isAliasChar, Bool.or_eq_true, Bool.and_eq_true, decide_eq_true_iff, beq_iff_eq] using h

lemma jsToLower_of_alias {c : Char} (h : isAliasChar c = true) : jsToLower c = c := by
  have h2 := isAliasChar_spec h
  unfold jsToLower
  rw [if_neg]
  omega

lemma isJsWhitespace_of_alias {c : Char} (h : isAliasChar c = true) :
    isJsWhitespace c = false := by
  have h2 := isAliasChar_spec h
  rw [Bool.eq_false_iff]
  intro hw
  simp only [isJsWhitespace, Bool.or_eq_true, beq_iff_eq, Bool.and_eq_true,
    decide_eq_true_iff] at hw
  omega

lemma mem_dropLeadingHyphen {c : Char} {l : List Char} (h : c ∈ dropLeadingHyphen l) :
    c ∈ l := by
  cases l with
  | nil => simp [dropLeadingHyphen] at h
  | cons a as =>
    by_cases ha : a = '-'
    · simp only [dropLeadingHyphen, ha, if_pos] at h
      exact List.mem_cons_of_mem _ h
    · simpa only [dropLeadingHyphen, if_neg ha] using h

lemma dropLeadingHyphen_head {l : List Char} (h : NoHyphenRun l) :
    ∀ c ∈ (dropLeadingHyphen l).head?, c ≠ '-' := by
  cases l with
  | nil => simp [dropLeadingHyphen]
  | cons a as =>
    by_cases ha : a = '-'
    · simp only [dropLeadingHyphen, ha, if_pos]
      intro c hc
      cases as with
      | nil => simp at hc
      | cons d ds =>
        simp only [List.head?_cons, Option.mem_def, Option.some.injEq] at hc
        rcases (List.chain'_cons'.mp h).1 d (by simp) with h1 | h2
        · exact absurd ha h1
        · exact hc ▸ h2
    · simp only [dropLeadingHyphen, if_neg ha]
      intro c hc
      simp only [List.head?_cons, Option.mem_def, Option.some.injEq] at hc
      exact hc ▸ ha

lemma noHyphenRun_dropLeadingHyphen {l : List Char} (h : NoHyphenRun l) :
    NoHyphenRun (dropLeadingHyphen l) := by
  cases l with
  | nil => simpa [dropLeadingHyphen] using h
  | cons a as =>
    by_cases ha : a = '-'
    · simp only [dropLeadingHyphen, ha, if_pos]
      exact (List.chain'_cons'.mp h).2
    · simpa only [dropLeadingHyphen, if_neg ha] using h

lemma dropLeadingHyphen_of_head {l : List Char} (h : ∀ c ∈ l.head?, c ≠ '-') :
    dropLeadingHyphen l = l := by
  cases l with
  | nil => rfl
  | cons a as =>
    have ha : a ≠ '-' := h a (by simp)
    simp only [dropLeadingHyphen, if_neg ha]

lemma dropLeadingHyphen_getLast {c : Char} {l : List Char}
    (h : c ∈ (dropLeadingHyphen l).getLast?) : c ∈ l.getLast? := by
  cases l with
  | nil => simp [dropLeadingHyphen] at h
  | cons a as =>
    by_cases ha : a = '-'
    · simp only [dropLeadingHyphen, ha, if_pos] at h
      cases as with
      | nil => simp at h
      | cons d ds => rw [List.getLast?_cons_cons]; exact h
    · simpa only [dropLeadingHyphen, if_neg ha] using h

lemma noHyphenRun_reverse {l : List Char} (h : NoHyphenRun l) : NoHyphenRun l.reverse := by
  rw [NoHyphenRun, List.chain'_reverse]
  exact h.imp (fun a b hab => Or.symm hab)

lemma mem_stripEdgeHyphens {c : Char} {l : List Char} (h : c ∈ stripEdgeHyphens l) :
    c ∈ l := by
  unfold stripEdgeHyphens at h
  rw [List.mem_reverse] at h
  have h2 := mem_dropLeadingHyphen h
  rw [List.mem_reverse] at h2
  exact mem_dropLeadingHyphen h2

lemma noHyphenRun_stripEdgeHyphens {l : List Char} (h : NoHyphenRun l) :
    NoHyphenRun (stripEdgeHyphens l) := by
  unfold stripEdgeHyphens
  exact noHyphenRun_reverse
    (noHyphenRun_dropLeadingHyphen (noHyphenRun_reverse (noHyphenRun_dropLeadingHyphen h)))

lemma stripEdgeHyphens_edges {l : List Char} (h : NoHyphenRun l) :
    (∀ c ∈ (stripEdgeHyphens l).head?, c ≠ '-') ∧
    (∀ c ∈ (stripEdgeHyphens l).getLast?, c ≠ '-') := by
  have hu : NoHyphenRun (dropLeadingHyphen l) := noHyphenRun_dropLeadingHyphen h
  have huh : ∀ c ∈ (dropLeadingHyphen l).head?, c ≠ '-' := dropLeadingHyphen_head h
  have hur : NoHyphenRun (dropLeadingHyphen l).reverse := noHyphenRun_reverse hu
  constructor
  · intro c hc
    unfold stripEdgeHyphens at hc
    rw [List.head?_reverse] at hc
    have h2 := dropLeadingHyphen_getLast hc
    rw [List.getLast?_reverse] at h2
    exact huh c h2
  · intro c hc
    unfold stripEdgeHyphens at hc
    rw [List.getLast?_reverse] at hc
    exact dropLeadingHyphen_head hur c hc

lemma stripEdgeHyphens_of_edges {l : List Char}
    (h1 : ∀ c ∈ l.head?, c ≠ '-') (h2 : ∀ c ∈ l.getLast?, c ≠ '-') :
    stripEdgeHyphens l = l := by
  unfold stripEdgeHyphens
  rw [dropLeadingHyphen_of_head h1]
  rw [dropLeadingHyphen_of_head (by rw [List.head?_reverse]; exact h2)]
  exact List.reverse_reverse l

lemma map_eq_self_of {f : Char → Char} :
    ∀ {l : List Char}, (∀ c ∈ l, f c = c) → l.map f = l := by
  intro l
  induction l with
  | nil => intro _; rfl
  | cons a as ih =>
    intro h
    simp only [List.map_cons]
    rw [h a (by simp), ih (fun c hc => h c (List.mem_cons_of_mem a hc))]

lemma collapseRuns_of_forall_not {p : Char → Bool} {r : Char} {l : List Char}
    (h : ∀ c ∈ l, p c = false) : collapseRuns p r l = l :=
  collapseRunsAux_of_forall_not h

lemma collapseRuns_hyphen_id {l : List Char} (h : NoHyphenRun l) :
    collapseRuns isHyphen '-' l = l :=
  (collapseRunsAux_hyphen_id h).1

lemma transformToAlias_all_alias (l : List Char) :
    ∀ c ∈ transformToAlias l, isAliasChar c = true := by
  intro c hc
  unfold transformToAlias at hc
  have h1 := mem_stripEdgeHyphens hc
  rcases mem_collapseRunsAux h1 with h2 | h3
  · subst h2; decide
  · exact List.of_mem_filter h3

lemma transformToAlias_noHyphenRun (l : List Char) :
    NoHyphenRun (transformToAlias l) :=
  noHyphenRun_stripEdgeHyphens (collapseRunsAux_hyphen_chain _).1

/-- C9. `InstanceGroupController.transformToAlias` is idempotent, and its
    result is either the empty string or consists only of characters in
    `[a-z0-9-]` (i.e. it matches the regex `^[a-z0-9-]+$`). -/
theorem transformToAlias_idempotent_and_charset (l : List Char) :
    transformToAlias (transformToAlias l) = transformToAlias l ∧
    (transformToAlias l = [] ∨ ∀ c ∈ transformToAlias l, isAliasChar c = true) := by
  refine ⟨?_, Or.inr (transformToAlias_all_alias l)⟩
  set y := transformToAlias l with hy
  have hall : ∀ c ∈ y, isAliasChar c = true := transformToAlias_all_alias l
  have hrun : NoHyphenRun y := transformToAlias_noHyphenRun l
  have hedges : (∀ c ∈ y.head?, c ≠ '-') ∧ (∀ c ∈ y.getLast?, c ≠ '-') := by
    rw [hy]
    exact stripEdgeHyphens_edges (collapseRunsAux_hyphen_chain _).1
  have hmap : y.map jsToLower = y :=
    map_eq_self_of (fun c hc => jsToLower_of_alias (hall c hc))
  have hws : collapseRuns isJsWhitespace '-' y = y :=
    collapseRuns_of_forall_not (fun c hc => isJsWhitespace_of_alias (hall c hc))
  have hfil : y.filter isAliasChar = y := List.filter_eq_self.mpr hall
  have hcol : collapseRuns isHyphen '-' y = y := collapseRuns_hyphen_id hrun
  show transformToAlias y = y
  unfold transformToAlias
  rw [hmap, hws, hfil, hcol]
  exact stripEdgeHyphens_of_edges hedges.1 hedges.2

/-! ## Rotation state model (SendMessageController)

The controller keys a shared cache with strings. Every contact-descriptor
access goes through `getRotationDataFromCache` / `saveRotationDataToCache`,
which prefix the key with `instance_rotation:`; the only other key ever used
is the literal `global_rotation`. The model therefore splits the cache into
`cacheRot` (indexed by the full prefixed key) and `cacheGlob` (the single
`global_rotation` cell); the two key families are disjoint because every
contact key starts with the `instance_rotation:` prefix. `cacheFailing`
models the `catch` paths: when set, every `cache.get`/`cache.set` throws.
The `lastUpdated` timestamp stored alongside descriptors is never read and
is not modelled. -/

/-- A contact rotation descriptor (`usedInstances` is a JS `Set`,
    serialised to the cache as an array). -/
structure RotationData where
  usedInstances : List String
  lastUsedInstance : Option String
  rotationCount : Nat
deriving DecidableEq

/-- The global rotation descriptor. -/
structure GlobalRotationData where
  lastUsedInstance : Option String
  rotationCount : Nat
deriving DecidableEq

/-- Process state of `SendMessageController` plus the cache collaborator. -/
structure ControllerState where
  cacheRot : String → Option RotationData
  cacheGlob : Option GlobalRotationData
  rotationMemory : String → Option RotationData
  globalRotationMemory : GlobalRotationData
  cacheFailing : Bool

/-- JS `x || null` for a nullable string (the empty string is falsy). -/
def jsStrOrNull (o : Option String) : Option String :=
  match o with
  | some s => if s = "" then none else some s
  | none => none

/-- JS truthiness of a nullable string. -/
def jsTruthyStr (o : Option String) : Bool :=
  match o with
  | some s => decide (s ≠ "")
  | none => false

/-- JS `a || b` where `a` is the result of `Array.prototype.find` on strings
    (`undefined` and the empty string are falsy). -/
def jsOrOptStr (a b : Option String) : Option String :=
  match a with
  | some s => if s = "" then b else some s
  | none => b

/-- JS `a || d` producing the final string of an `||` chain. -/
def jsOrStr (a : Option String) (d : String) : String :=
  match a with
  | some s => if s = "" then d else s
  | none => d

/-- `Set.prototype.add`: appends the element unless already present. -/
def setAdd (l : List String) (x : String) : List String :=
  if x ∈ l then l else l ++ [x]

/-- `Set.prototype.size`: number of distinct elements. -/
def setSize (l : List String) : Nat := l.dedup.length

def CACHE_KEY_PREFIX : String := "instance_rotation"
def GLOBAL_CACHE_KEY : String := "global_rotation"
def GROUP_CACHE_KEY_PREFIX : String := "group_rotation"

/-- Lexicographic comparison on code points, as used by the default
    `Array.prototype.sort` on strings. -/
def lexLe : List Char → List Char → Bool
  | [], _ => true
  | _ :: _, [] => false
  | a :: as, b :: bs =>
    if a.toNat < b.toNat then true
    else if b.toNat < a.toNat then false
    else lexLe as bs

def strLe (a b : String) : Bool := lexLe a.data b.data

/-- Insert into a sorted list (used to model `Array.prototype.sort`). -/
def insertSorted (x : String) : List String → List String
  | [] => [x]
  | y :: ys => if strLe x y then x :: y :: ys else y :: insertSorted x ys

/-- `[...instances].sort()`. -/
def sortStrings : List String → List String
  | [] => []
  | x :: xs => insertSorted x (sortStrings xs)

/-- `Array.prototype.indexOf` (−1 when absent). -/
def jsIndexOf (l : List String) (x : String) : Int :=
  match l.indexOf? x with
  | some n => (n : Int)
  | none => -1

/-- `normalizeContactNumber`: strips every non-digit (`replace(/[^\d]/g, '')`). -/
def normalizeContactNumber (s : String) : String :=
  String.mk (s.data.filter Char.isDigit)

/-- Deserialisation applied on a cache hit:
    `new Set(d.usedInstances || [])`, `d.lastUsedInstance || null`,
    `d.rotationCount || 0`. -/
def readRotationData (d : RotationData) : RotationData :=
  { usedInstances := d.usedInstances.dedup
    lastUsedInstance := jsStrOrNull d.lastUsedInstance
    rotationCount := d.rotationCount }

/-- Read of the in-memory fallback entry: `new Set(mem.usedInstances)` with
    the other fields passed through unchanged. -/
def readMemoryRotationData (m : RotationData) : RotationData :=
  { usedInstances := m.usedInstances.dedup
    lastUsedInstance := m.lastUsedInstance
    rotationCount := m.rotationCount }

/-- The full cache key `instance_rotation:<key>`. -/
def rotationCacheKey (key : String) : String := CACHE_KEY_PREFIX ++ ":" ++ key

/-- `getRotationDataFromCache`: cache first, then (only on a cache miss)
    the in-memory fallback; on a cache error the catch returns `null`. -/
def getRotationDataFromCache (st : ControllerState) (key : String) : Option RotationData :=
  if st.cacheFailing then none
  else
    match st.cacheRot (rotationCacheKey key) with
    | some d => some (readRotationData d)
    | none =>
      match st.rotationMemory key with
      | some m => some (readMemoryRotationData m)
      | none => none

/-- `saveRotationDataToCache`: writes the cache and then the in-memory
    fallback inside one `try`; a cache error skips the fallback update. -/
def saveRotationDataToCache (st : ControllerState) (key : String) (d : RotationData) :
    ControllerState :=
  if st.cacheFailing then st
  else
    { st with
      cacheRot := fun k =>
        if k = rotationCacheKey key then
          some { d with usedInstances := d.usedInstances.dedup }
        else st.cacheRot k
      rotationMemory := fun k =>
        if k = key then
          some { d with usedInstances := d.usedInstances.dedup }
        else st.rotationMemory k }

/-- `getGlobalRotationData`: cache hit, else the (always present) in-memory
    global record; on a cache error the catch returns `null`. -/
def getGlobalRotationData (st : ControllerState) : Option GlobalRotationData :=
  if st.cacheFailing then none
  else
    match st.cacheGlob with
    | some g =>
      some { lastUsedInstance := jsStrOrNull g.lastUsedInstance
             rotationCount := g.rotationCount }
    | none => some st.globalRotationMemory

/-- `saveGlobalRotationData`: cache write then memory update in one `try`. -/
def saveGlobalRotationData (st : ControllerState) (d : GlobalRotationData) :
    ControllerState :=
  if st.cacheFailing then st
  else { st with cacheGlob := some d, globalRotationMemory := d }

/-- The un-prefixed contact key used by the grouped path:
    `group_rotation:<groupId>:<contact>` (the raw contact string). -/
def groupContactKey (groupId contact : String) : String :=
  GROUP_CACHE_KEY_PREFIX ++ ":" ++ groupId ++ ":" ++ contact

/-- `orderedInstances[(currentGlobalIndex + 1) % length]` of the grouped
    path, where `currentGlobalIndex` is `indexOf(lastUsedInstance)` or −1. -/
def nextGlobalInstanceOf (ordered : List String) (glast : Option String) : String :=
  let currentGlobalIndex : Int :=
    if jsTruthyStr glast then jsIndexOf ordered (glast.getD "") else -1
  let nextGlobalIndex := ((currentGlobalIndex + 1) % (ordered.length : Int)).toNat
  ordered.getD nextGlobalIndex ""

/-- Selection of `selectInstanceForContactInGroup`: try the next global
    instance, else `find`-chains over the ordered list with JS `||`. -/
def groupedPick (ordered : List String) (contactRot : RotationData)
    (globalRot : GlobalRotationData) : String :=
  let nextGlobalInstance := nextGlobalInstanceOf ordered globalRot.lastUsedInstance
  if some nextGlobalInstance ≠ contactRot.lastUsedInstance ∧
      nextGlobalInstance ∉ contactRot.usedInstances then
    nextGlobalInstance
  else
    jsOrStr
      (jsOrOptStr
        (ordered.find? (fun i =>
          decide (some i ≠ contactRot.lastUsedInstance ∧ i ∉ contactRot.usedInstances)))
        (ordered.find? (fun i => decide (some i ≠ contactRot.lastUsedInstance))))
      (ordered.getD 0 "")

/-- Contact-descriptor update of the grouped path: add the pick, reset the
    set to `{pick}` when it covers the candidates, and increment
    `rotationCount` unconditionally. -/
def groupedNewContactData (ordered : List String) (contactRot : RotationData)
    (pick : String) : RotationData :=
  let newUsed0 := setAdd contactRot.usedInstances pick
  let newUsed := if setSize newUsed0 ≥ ordered.length then [pick] else newUsed0
  { usedInstances := newUsed
    lastUsedInstance := some pick
    rotationCount := contactRot.rotationCount + 1 }

/-- `SendMessageController.selectInstanceForContactInGroup`. -/
def selectInstanceForContactInGroup (st : ControllerState) (contact : String)
    (groupInstances : List String) (groupId : String) : String × ControllerState :=
  let contactKey := groupContactKey groupId contact
  let contactRotationData :=
    (getRotationDataFromCache st contactKey).getD ⟨[], none, 0⟩
  let globalRotationData := (getGlobalRotationData st).getD ⟨none, 0⟩
  let orderedInstances := sortStrings groupInstances
  let selectedInstance := groupedPick orderedInstances contactRotationData globalRotationData
  let newContactRotationData :=
    groupedNewContactData orderedInstances contactRotationData selectedInstance
  let newGlobalRotationData : GlobalRotationData :=
    ⟨some selectedInstance, globalRotationData.rotationCount + 1⟩
  let st1 := saveRotationDataToCache st contactKey newContactRotationData
  let st2 := saveGlobalRotationData st1 newGlobalRotationData
  (selectedInstance, st2)

/-- `globalNextIndex` of the ungrouped path. -/
def globalNextIndexOf (sorted : List String) (globalRotation : Option GlobalRotationData) :
    Nat :=
  match globalRotation with
  | some g =>
    if jsTruthyStr g.lastUsedInstance then
      let gli := jsIndexOf sorted (g.lastUsedInstance.getD "")
      if 0 ≤ gli then ((gli + 1) % (sorted.length : Int)).toNat else 0
    else 0
  | none => 0

/-- One scanning pass of the ungrouped path: first candidate, starting at
    `start` and wrapping around, that satisfies `p`. -/
def scanPick (l : List String) (start : Nat) (p : String → Bool) : Option String :=
  (List.range l.length).findSome? (fun i =>
    let cand := l.getD ((start + i) % l.length) ""
    if p cand then some cand else none)

/-- Selection of `selectInstanceForContact`: two wrap-around passes from the
    global index, then `sortedInstances[globalNextIndex]`, with JS `||`. -/
def ungroupedPick (sorted : List String) (gni : Nat) (rot : RotationData) : String :=
  jsOrStr
    (jsOrOptStr
      (scanPick sorted gni (fun cand =>
        decide (some cand ≠ rot.lastUsedInstance ∧ cand ∉ rot.usedInstances)))
      (scanPick sorted gni (fun cand => decide (some cand ≠ rot.lastUsedInstance))))
    (sorted.getD gni "")

/-- Start-of-call cycle reset of the ungrouped path: when the loaded set
    already covers the candidates, clear it and bump `rotationCount`
    (`lastUsedInstance` is kept). -/
def resetIfComplete (sorted : List String) (rot : RotationData) : RotationData :=
  if setSize rot.usedInstances ≥ sorted.length then
    { usedInstances := []
      lastUsedInstance := rot.lastUsedInstance
      rotationCount := rot.rotationCount + 1 }
  else rot

/-- `SendMessageController.selectInstanceForContact`. -/
def selectInstanceForContact (st : ControllerState) (contactNumber : String)
    (availableInstances : List String) : String × ControllerState :=
  let normalizedContact := normalizeContactNumber contactNumber
  let sortedInstances := sortStrings availableInstances
  let rotationInfo0 := (getRotationDataFromCache st normalizedContact).getD ⟨[], none, 0⟩
  let rotationInfo := resetIfComplete sortedInstances rotationInfo0
  let globalRotation := getGlobalRotationData st
  let globalNextIndex := globalNextIndexOf sortedInstances globalRotation
  let selectedInstance := ungroupedPick sortedInstances globalNextIndex rotationInfo
  let newRotationInfo : RotationData :=
    { usedInstances := setAdd rotationInfo.usedInstances selectedInstance
      lastUsedInstance := some selectedInstance
      rotationCount := rotationInfo.rotationCount }
  let st1 := saveRotationDataToCache st normalizedContact newRotationInfo
  let st2 := saveGlobalRotationData st1
    ⟨some selectedInstance, ((globalRotation.map (·.rotationCount)).getD 0) + 1⟩
  (selectedInstance, st2)

/-- A fresh process state with an empty, working cache. -/
def emptyState : ControllerState :=
  { cacheRot := fun _ => none
    cacheGlob := none
    rotationMemory := fun _ => none
    globalRotationMemory := ⟨none, 0⟩
    cacheFailing := false }

example : (selectInstanceForContact emptyState "5511" ["b", "a", "c"]).1 = "a" := by decide
example :
    (selectInstanceForContact
      (selectInstanceForContact emptyState "5511" ["b", "a", "c"]).2
      "5512" ["b", "a", "c"]).1 = "b" := by decide
example : (selectInstanceForContactInGroup emptyState "5511" ["b", "a"] "g1").1 = "a" := by
  decide

/-! ### Observation lemmas for the store operations -/

lemma saveRot_cacheFailing (st : ControllerState) (k : String) (d : RotationData) :
    (saveRotationDataToCache st k d).cacheFailing = st.cacheFailing := by
  unfold saveRotationDataToCache; split <;> rfl

lemma saveRot_cacheGlob (st : ControllerState) (k : String) (d : RotationData) :
    (saveRotationDataToCache st k d).cacheGlob = st.cacheGlob := by
  unfold saveRotationDataToCache; split <;> rfl

lemma saveRot_globalMemory (st : ControllerState) (k : String) (d : RotationData) :
    (saveRotationDataToCache st k d).globalRotationMemory = st.globalRotationMemory := by
  unfold saveRotationDataToCache; split <;> rfl

lemma saveRot_cacheRot (st : ControllerState) (k : String) (d : RotationData) (j : String) :
    (saveRotationDataToCache st k d).cacheRot j =
      if st.cacheFailing then st.cacheRot j
      else if j = rotationCacheKey k then
        some { d with usedInstances := d.usedInstances.dedup }
      else st.cacheRot j := by
  unfold saveRotationDataToCache; split <;> simp_all

lemma saveRot_rotationMemory (st : ControllerState) (k : String) (d : RotationData)
    (j : String) :
    (saveRotationDataToCache st k d).rotationMemory j =
      if st.cacheFailing then st.rotationMemory j
      else if j = k then
        some { d with usedInstances := d.usedInstances.dedup }
      else st.rotationMemory j := by
  unfold saveRotationDataToCache; split <;> simp_all

lemma saveGlob_cacheFailing (st : ControllerState) (d : GlobalRotationData) :
    (saveGlobalRotationData st d).cacheFailing = st.cacheFailing := by
  unfold saveGlobalRotationData; split <;> rfl

lemma saveGlob_cacheGlob (st : ControllerState) (d : GlobalRotationData) :
    (saveGlobalRotationData st d).cacheGlob =
      if st.cacheFailing then st.cacheGlob else some d := by
  unfold saveGlobalRotationData; split <;> simp_all

lemma saveGlob_globalMemory (st : ControllerState) (d : GlobalRotationData) :
    (saveGlobalRotationData st d).globalRotationMemory =
      if st.cacheFailing then st.globalRotationMemory else d := by
  unfold saveGlobalRotationData; split <;> simp_all

lemma saveGlob_cacheRot (st : ControllerState) (d : GlobalRotationData) :
    (saveGlobalRotationData st d).cacheRot = st.cacheRot := by
  unfold saveGlobalRotationData; split <;> rfl

lemma saveGlob_rotationMemory (st : ControllerState) (d : GlobalRotationData) :
    (saveGlobalRotationData st d).rotationMemory = st.rotationMemory := by
  unfold saveGlobalRotationData; split <;> rfl

lemma selectInGroup_eq (st : ControllerState) (contact : String) (insts : List String)
    (gid : String) :
    selectInstanceForContactInGroup st contact insts gid =
      (let loaded := (getRotationDataFromCache st (groupContactKey gid contact)).getD ⟨[], none, 0⟩
       let g := (getGlobalRotationData st).getD ⟨none, 0⟩
       let pick := groupedPick (sortStrings insts) loaded g
       (pick,
        saveGlobalRotationData
          (saveRotationDataToCache st (groupContactKey gid contact)
            (groupedNewContactData (sortStrings insts) loaded pick))
          ⟨some pick, g.rotationCount + 1⟩)) := rfl

lemma selectUngrouped_eq (st : ControllerState) (contact : String) (insts : List String) :
    selectInstanceForContact st contact insts =
      (let key := normalizeContactNumber contact
       let loaded := (getRotationDataFromCache st key).getD ⟨[], none, 0⟩
       let rot := resetIfComplete (sortStrings insts) loaded
       let g := getGlobalRotationData st
       let pick := ungroupedPick (sortStrings insts) (globalNextIndexOf (sortStrings insts) g) rot
       (pick,
        saveGlobalRotationData
          (saveRotationDataToCache st key
            ⟨setAdd rot.usedInstances pick, some pick, rot.rotationCount⟩)
          ⟨some pick, ((g.map (·.rotationCount)).getD 0) + 1⟩)) := rfl

/-- C2 counterexample: the grouped path does not use the keys the claim
    states and shares global rotation state with the ungrouped path. On a
    fresh state the ungrouped selection for contact `111` over `[a, b]`
    picks `a`; after one grouped selection (group `g`, contact `222`) the
    same ungrouped selection picks `b`, because the grouped call wrote the
    top-level `global_rotation` descriptor. Moreover the grouped contact
    descriptor for raw contact `+5 5` is stored under
    `instance_rotation:group_rotation:g:+5 5` (raw contact, with the
    `instance_rotation:` prefix prepended), not under a digit-normalised
    key, and the namespaced `group_rotation:g:global` cell stays empty. -/
theorem selectInGroup_key_claim_counterexample :
    (selectInstanceForContact emptyState "111" ["a", "b"]).1 = "a" ∧
    (selectInstanceForContact
        (selectInstanceForContactInGroup emptyState "222" ["a", "b"] "g").2
        "111" ["a", "b"]).1 = "b" ∧
    (selectInstanceForContactInGroup emptyState "222" ["a", "b"] "g").2.cacheGlob
      = some ⟨some "a", 1⟩ ∧
    (selectInstanceForContactInGroup emptyState "+5 5" ["a", "b"] "g").2.cacheRot
      "instance_rotation:group_rotation:g:+5 5" = some ⟨["a"], some "a", 1⟩ ∧
    (selectInstanceForContactInGroup emptyState "+5 5" ["a", "b"] "g").2.cacheRot
      "instance_rotation:group_rotation:g:55" = none ∧
    (selectInstanceForContactInGroup emptyState "+5 5" ["a", "b"] "g").2.cacheRot
      "instance_rotation:group_rotation:g:global" = none := by
  decide

/-- C2 amended: the grouped selection stores the contact descriptor under
    `instance_rotation:group_rotation:<groupId>:<contact>` with the raw
    (un-normalised) contact, writes the top-level global descriptor (the
    same `global_rotation` cell the ungrouped path uses, both in cache and
    in process memory), leaves every other cache and fallback cell
    untouched, and never touches the namespaced
    `group_rotation:<groupId>:global` key. -/
theorem selectInGroup_key_usage (st : ControllerState) (contact gid k : String)
    (insts : List String) (h : st.cacheFailing = false) :
    ((selectInstanceForContactInGroup st contact insts gid).2.cacheGlob
        = some ⟨some (selectInstanceForContactInGroup st contact insts gid).1,
            ((getGlobalRotationData st).getD ⟨none, 0⟩).rotationCount + 1⟩) ∧
    ((selectInstanceForContactInGroup st contact insts gid).2.globalRotationMemory
        = ⟨some (selectInstanceForContactInGroup st contact insts gid).1,
            ((getGlobalRotationData st).getD ⟨none, 0⟩).rotationCount + 1⟩) ∧
    ((selectInstanceForContactInGroup st contact insts gid).2.cacheRot
        (rotationCacheKey (groupContactKey gid contact))).isSome = true ∧
    (k ≠ rotationCacheKey (groupContactKey gid contact) →
      (selectInstanceForContactInGroup st contact insts gid).2.cacheRot k
        = st.cacheRot k) ∧
    (k ≠ groupContactKey gid contact →
      (selectInstanceForContactInGroup st contact insts gid).2.rotationMemory k
        = st.rotationMemory k) := by
  refine ⟨?_, ?_, ?_, ?_, ?_⟩
  · rw [selectInGroup_eq]
    simp [saveGlob_cacheGlob, saveRot_cacheFailing, h]
  · rw [selectInGroup_eq]
    simp [saveGlob_globalMemory, saveRot_cacheFailing, h]
  · rw [selectInGroup_eq]
    simp [saveGlob_cacheRot, saveRot_cacheRot, h]
  · intro hk
    rw [selectInGroup_eq]
    simp [saveGlob_cacheRot, saveRot_cacheRot, h, if_neg hk]
  · intro hk
    rw [selectInGroup_eq]
    simp [saveGlob_rotationMemory, saveRot_rotationMemory, h, if_neg hk]

/-- Closed instance of the C2 amended theorem at a fresh state, checking in
    particular that the namespaced group-global key is untouched. -/
theorem selectInGroup_key_usage_witness :
    ((selectInstanceForContactInGroup emptyState "77" ["a", "b"] "g9").2.cacheGlob
        = some ⟨some "a", 1⟩) ∧
    ((selectInstanceForContactInGroup emptyState "77" ["a", "b"] "g9").2.cacheRot
        "instance_rotation:group_rotation:g9:global" = none) := by
  have h := selectInGroup_key_usage emptyState "77" "g9"
    "instance_rotation:group_rotation:g9:global" ["a", "b"] rfl
  revert h
  decide

/-- C4 counterexample. Grouped path: one selection for contact `1` over two
    candidates adds the pick (`|used| = 1 < 2`, so no cycle reset) yet the
    stored `rotationCount` is already 1, not the loaded 0. Ungrouped path:
    the second selection for the same contact over `[a, b]` makes the set
    cover both candidates, yet the stored descriptor keeps the full set
    `{a, b}` (not `{pick}`) and `rotationCount` 0 — the reset happens only
    at the start of the next invocation. -/
theorem rotation_count_update_counterexample :
    (selectInstanceForContactInGroup emptyState "1" ["a", "b"] "g").2.cacheRot
      "instance_rotation:group_rotation:g:1" = some ⟨["a"], some "a", 1⟩ ∧
    (selectInstanceForContact
        (selectInstanceForContact emptyState "111" ["a", "b"]).2
        "111" ["a", "b"]).2.cacheRot "instance_rotation:111"
      = some ⟨["a", "b"], some "b", 0⟩ := by
  decide

/-- C4 amended: in the grouped path the stored contact descriptor adds the
    pick, resets the set to `{pick}` exactly when it then covers the
    candidate list, and increments `rotationCount` on every invocation; in
    the ungrouped path the set is cleared and `rotationCount` incremented
    only by the start-of-call reset (when the loaded set already covers the
    candidates), after which the pick is added and `lastUsedInstance` set,
    with no end-of-invocation reset. -/
theorem rotation_descriptor_update (st : ControllerState) (contact gid : String)
    (insts : List String) (h : st.cacheFailing = false) :
    ((selectInstanceForContactInGroup st contact insts gid).2.cacheRot
        (rotationCacheKey (groupContactKey gid contact))
      = some
        { usedInstances :=
            (if setSize (setAdd
                  ((getRotationDataFromCache st (groupContactKey gid contact)).getD
                    ⟨[], none, 0⟩).usedInstances
                  (selectInstanceForContactInGroup st contact insts gid).1)
                ≥ (sortStrings insts).length
             then [(selectInstanceForContactInGroup st contact insts gid).1]
             else setAdd
                  ((getRotationDataFromCache st (groupContactKey gid contact)).getD
                    ⟨[], none, 0⟩).usedInstances
                  (selectInstanceForContactInGroup st contact insts gid).1).dedup
          lastUsedInstance := some (selectInstanceForContactInGroup st contact insts gid).1
          rotationCount :=
            ((getRotationDataFromCache st (groupContactKey gid contact)).getD
              ⟨[], none, 0⟩).rotationCount + 1 }) ∧
    ((selectInstanceForContact st contact insts).2.cacheRot
        (rotationCacheKey (normalizeContactNumber contact))
      = some
        { usedInstances :=
            (setAdd
              (resetIfComplete (sortStrings insts)
                ((getRotationDataFromCache st (normalizeContactNumber contact)).getD
                  ⟨[], none, 0⟩)).usedInstances
              (selectInstanceForContact st contact insts).1).dedup
          lastUsedInstance := some (selectInstanceForContact st contact insts).1
          rotationCount :=
            (resetIfComplete (sortStrings insts)
              ((getRotationDataFromCache st (normalizeContactNumber contact)).getD
                ⟨[], none, 0⟩)).rotationCount }) := by
  constructor
  · rw [selectInGroup_eq]
    simp [saveGlob_cacheRot, saveRot_cacheRot, h, groupedNewContactData]
  · rw [selectUngrouped_eq]
    simp [saveGlob_cacheRot, saveRot_cacheRot, h]

/-- Closed instance of the C4 amended theorem: in the grouped path even a
    non-reset invocation increments `rotationCount`, and in the ungrouped
    path the cycle-filling invocation does not. -/
theorem rotation_descriptor_update_witness :
    (selectInstanceForContactInGroup emptyState "44" ["a", "b"] "g5").2.cacheRot
      "instance_rotation:group_rotation:g5:44" = some ⟨["a"], some "a", 1⟩ ∧
    (selectInstanceForContact emptyState "44" ["a", "b"]).2.cacheRot
      "instance_rotation:44" = some ⟨["a"], some "a", 0⟩ := by
  have h := rotation_descriptor_update emptyState "44" "g5" ["a", "b"] rfl
  revert h
  decide

/-- C6 counterexample. With a failing cache, `saveRotationDataToCache` does
    not update the in-memory fallback (the write happens after `cache.set`
    inside the same `try`), and `getRotationDataFromCache` returns `null`
    from the catch without consulting the fallback — so a Set followed by a
    Get observes nothing, and even a present fallback entry is ignored on a
    cache error. -/
theorem rotation_store_error_counterexample :
    (saveRotationDataToCache { emptyState with cacheFailing := true } "k"
        ⟨["a"], some "a", 1⟩).rotationMemory "k" = none ∧
    getRotationDataFromCache
      (saveRotationDataToCache { emptyState with cacheFailing := true } "k"
        ⟨["a"], some "a", 1⟩) "k" = none ∧
    getRotationDataFromCache
      { emptyState with
        cacheFailing := true
        rotationMemory := fun j => if j = "k" then some ⟨["a"], some "a", 3⟩ else none }
      "k" = none := by
  decide

/-- C6 amended: the in-memory fallback is consulted only on a cache miss
    (not on a cache error), and it is updated only when the cache write
    succeeds. When the cache works, a cache-missing Get returns the
    fallback entry, and a Set followed by a Get observes the written
    descriptor; when the cache errors, Get returns absent and Set changes
    neither store. -/
theorem rotation_store_fallback (st : ControllerState) (key j : String)
    (d m : RotationData) :
    (st.cacheFailing = true →
      (saveRotationDataToCache st key d).rotationMemory j = st.rotationMemory j ∧
      (saveRotationDataToCache st key d).cacheRot j = st.cacheRot j ∧
      getRotationDataFromCache st key = none) ∧
    (st.cacheFailing = false → st.cacheRot (rotationCacheKey key) = none →
      st.rotationMemory key = some m →
      getRotationDataFromCache st key = some (readMemoryRotationData m)) ∧
    (st.cacheFailing = false →
      getRotationDataFromCache (saveRotationDataToCache st key d) key
        = some (readRotationData d)) := by
  refine ⟨?_, ?_, ?_⟩
  · intro h
    refine ⟨?_, ?_, ?_⟩
    · rw [saveRot_rotationMemory, if_pos h]
    · rw [saveRot_cacheRot, if_pos h]
    · simp [getRotationDataFromCache, h]
  · intro h hc hm
    simp [getRotationDataFromCache, h, hc, hm]
  · intro h
    simp only [getRotationDataFromCache, saveRot_cacheFailing, h, Bool.false_eq_true,
      if_false, saveRot_cacheRot, if_pos rfl]
    simp [readRotationData, List.dedup_eq_self.mpr (List.nodup_dedup d.usedInstances)]

/-- Closed instance of the C6 amended theorem: error path (nothing stored,
    Get absent), miss path (fallback served), and working round-trip. -/
theorem rotation_store_fallback_witness :
    ((saveRotationDataToCache { emptyState with cacheFailing := true } "c1"
        ⟨["a"], some "a", 2⟩).rotationMemory "c1" = none) ∧
    (getRotationDataFromCache
        { emptyState with
          rotationMemory := fun j => if j = "c1" then some ⟨["a"], some "a", 3⟩ else none }
        "c1" = some ⟨["a"], some "a", 3⟩) ∧
    (getRotationDataFromCache
        (saveRotationDataToCache emptyState "c1" ⟨["a"], some "a", 2⟩) "c1"
      = some ⟨["a"], some "a", 2⟩) := by
  have h1 := rotation_store_fallback { emptyState with cacheFailing := true } "c1" "c1"
    (⟨["a"], some "a", 2⟩ : RotationData) (⟨["a"], some "a", 3⟩ : RotationData)
  have h2 := rotation_store_fallback
    { emptyState with
      rotationMemory := fun j => if j = "c1" then some ⟨["a"], some "a", 3⟩ else none }
    "c1" "c1" (⟨["a"], some "a", 2⟩ : RotationData) (⟨["a"], some "a", 3⟩ : RotationData)
  have h3 := rotation_store_fallback emptyState "c1" "c1"
    (⟨["a"], some "a", 2⟩ : RotationData) (⟨["a"], some "a", 3⟩ : RotationData)
  refine ⟨(h1.1 rfl).1, ?_, ?_⟩
  · have := h2.2.1 rfl (by decide) (by decide)
    revert this
    decide
  · have := h3.2.2 rfl
    revert this
    decide

lemma getRot_congr {st1 st2 : ControllerState} {k : String}
    (hf : st1.cacheFailing = st2.cacheFailing)
    (hc : st1.cacheRot (rotationCacheKey k) = st2.cacheRot (rotationCacheKey k))
    (hm : st1.rotationMemory k = st2.rotationMemory k) :
    getRotationDataFromCache st1 k = getRotationDataFromCache st2 k := by
  unfold getRotationDataFromCache
  rw [hf, hc, hm]

lemma getGlob_congr {st1 st2 : ControllerState}
    (hf : st1.cacheFailing = st2.cacheFailing)
    (hg : st1.cacheGlob = st2.cacheGlob)
    (hgm : st1.globalRotationMemory = st2.globalRotationMemory) :
    getGlobalRotationData st1 = getGlobalRotationData st2 := by
  unfold getGlobalRotationData
  rw [hf, hg, hgm]

/-- C10. Instance selection is deterministic and depends only on the
    rotation-store cells it reads: two states that agree on the contact
    descriptor cell (cache and fallback), the global descriptor (cache and
    fallback) and cache availability yield, for the same contact and
    candidate list, the same selected instance and the same written
    descriptor values, on both the grouped and the ungrouped path. No
    randomness enters the selection. -/
theorem select_deterministic (st1 st2 : ControllerState) (contact gid : String)
    (insts : List String)
    (hf : st1.cacheFailing = st2.cacheFailing)
    (hg : st1.cacheGlob = st2.cacheGlob)
    (hgm : st1.globalRotationMemory = st2.globalRotationMemory)
    (hr : st1.cacheRot (rotationCacheKey (groupContactKey gid contact))
        = st2.cacheRot (rotationCacheKey (groupContactKey gid contact)))
    (hm : st1.rotationMemory (groupContactKey gid contact)
        = st2.rotationMemory (groupContactKey gid contact))
    (hr2 : st1.cacheRot (rotationCacheKey (normalizeContactNumber contact))
        = st2.cacheRot (rotationCacheKey (normalizeContactNumber contact)))
    (hm2 : st1.rotationMemory (normalizeContactNumber contact)
        = st2.rotationMemory (normalizeContactNumber contact)) :
    ((selectInstanceForContactInGroup st1 contact insts gid).1
      = (selectInstanceForContactInGroup st2 contact insts gid).1) ∧
    ((selectInstanceForContactInGroup st1 contact insts gid).2.cacheRot
        (rotationCacheKey (groupContactKey gid contact))
      = (selectInstanceForContactInGroup st2 contact insts gid).2.cacheRot
        (rotationCacheKey (groupContactKey gid contact))) ∧
    ((selectInstanceForContactInGroup st1 contact insts gid).2.rotationMemory
        (groupContactKey gid contact)
      = (selectInstanceForContactInGroup st2 contact insts gid).2.rotationMemory
        (groupContactKey gid contact)) ∧
    ((selectInstanceForContactInGroup st1 contact insts gid).2.cacheGlob
      = (selectInstanceForContactInGroup st2 contact insts gid).2.cacheGlob) ∧
    ((selectInstanceForContactInGroup st1 contact insts gid).2.globalRotationMemory
      = (selectInstanceForContactInGroup st2 contact insts gid).2.globalRotationMemory) ∧
    ((selectInstanceForContact st1 contact insts).1
      = (selectInstanceForContact st2 contact insts).1) ∧
    ((selectInstanceForContact st1 contact insts).2.cacheRot
        (rotationCacheKey (normalizeContactNumber contact))
      = (selectInstanceForContact st2 contact insts).2.cacheRot
        (rotationCacheKey (normalizeContactNumber contact))) ∧
    ((selectInstanceForContact st1 contact insts).2.rotationMemory
        (normalizeContactNumber contact)
      = (selectInstanceForContact st2 contact insts).2.rotationMemory
        (normalizeContactNumber contact)) ∧
    ((selectInstanceForContact st1 contact insts).2.cacheGlob
      = (selectInstanceForContact st2 contact insts).2.cacheGlob) ∧
    ((selectInstanceForContact st1 contact insts).2.globalRotationMemory
      = (selectInstanceForContact st2 contact insts).2.globalRotationMemory) := by
  have hR : getRotationDataFromCache st1 (groupContactKey gid contact)
      = getRotationDataFromCache st2 (groupContactKey gid contact) := getRot_congr hf hr hm
  have hRn : getRotationDataFromCache st1 (normalizeContactNumber contact)
      = getRotationDataFromCache st2 (normalizeContactNumber contact) :=
    getRot_congr hf hr2 hm2
  have hG : getGlobalRotationData st1 = getGlobalRotationData st2 := getGlob_congr hf hg hgm
  refine ⟨?_, ?_, ?_, ?_, ?_, ?_, ?_, ?_, ?_, ?_⟩ <;>
    simp only [selectInGroup_eq, selectUngrouped_eq, saveGlob_cacheGlob, saveGlob_cacheRot,
      saveGlob_globalMemory, saveGlob_rotationMemory, saveRot_cacheFailing, saveRot_cacheRot,
      saveRot_rotationMemory, saveRot_cacheGlob, saveRot_globalMemory] <;>
    simp only [hR, hRn, hG, hf, hg, hgm, hr, hm, hr2, hm2]

/-- Closed instance of the C10 determinism theorem: two states differing
    only in rotation cells of other contacts give the same pick. -/
theorem select_deterministic_witness :
    (selectInstanceForContactInGroup
        { emptyState with
          rotationMemory := fun j => if j = "other" then some ⟨["z"], some "z", 9⟩ else none }
        "5" ["a", "b"] "g").1
      = (selectInstanceForContactInGroup emptyState "5" ["a", "b"] "g").1 := by
  have h := select_deterministic
    { emptyState with
      rotationMemory := fun j => if j = "other" then some ⟨["z"], some "z", 9⟩ else none }
    emptyState "5" "g" ["a", "b"] rfl rfl rfl rfl (by decide) rfl (by decide)
  exact h.1

/-! ### Properties of the selection algorithm (grouped path) -/

lemma insertSorted_perm (x : String) (l : List String) :
    List.Perm (insertSorted x l) (x :: l) := by
  induction l with
  | nil => exact List.Perm.refl _
  | cons y ys ih =>
    unfold insertSorted
    by_cases h : strLe x y
    · rw [if_pos h]
    · rw [if_neg h]
      exact ((ih.cons y).trans (List.Perm.swap x y ys))

lemma sortStrings_perm (l : List String) : List.Perm (sortStrings l) l := by
  induction l with
  | nil => exact List.Perm.refl _
  | cons x xs ih => exact (insertSorted_perm x (sortStrings xs)).trans (ih.cons x)

lemma mem_sortStrings {a : String} {l : List String} :
    a ∈ sortStrings l ↔ a ∈ l := (sortStrings_perm l).mem_iff

lemma length_sortStrings (l : List String) : (sortStrings l).length = l.length :=
  (sortStrings_perm l).length_eq

lemma nodup_sortStrings {l : List String} (h : l.Nodup) : (sortStrings l).Nodup :=
  (sortStrings_perm l).nodup_iff.mpr h

lemma exists_ne_of_nodup {l : List String} (hnd : l.Nodup) (hlen : 2 ≤ l.length)
    (x : String) : ∃ y ∈ l, y ≠ x := by
  match l, hnd, hlen with
  | a :: b :: rest, hnd, _ =>
    by_cases ha : a = x
    · refine ⟨b, by simp, ?_⟩
      have hab : a ≠ b := by
        have h1 := (List.nodup_cons.mp hnd).1
        simp at h1
        exact h1.1
      exact fun hb => hab (by rw [ha, hb])
    · exact ⟨a, by simp, ha⟩

lemma getD_mem {l : List String} {i : Nat} (h : i < l.length) (d : String) :
    l.getD i d ∈ l := by
  rw [List.getD_eq_getElem?_getD, List.getElem?_eq_getElem h]
  exact List.getElem_mem h

lemma nextGlobalInstanceOf_mem {ordered : List String} (h : ordered ≠ [])
    (glast : Option String) : nextGlobalInstanceOf ordered glast ∈ ordered := by
  unfold nextGlobalInstanceOf
  have hlen : 0 < ordered.length := List.length_pos.mpr h
  set cur : Int :=
    if jsTruthyStr glast then jsIndexOf ordered (glast.getD "") else -1 with hcur
  have hge : -1 ≤ cur := by
    rw [hcur]
    split
    · unfold jsIndexOf
      split
      · omega
      · omega
    · omega
  have hnn : (0 : Int) ≤ cur + 1 := by omega
  have hlz : (ordered.length : Int) ≠ 0 := by
    simp only [ne_eq, Nat.cast_eq_zero]
    omega
  have hmodnn : (0 : Int) ≤ (cur + 1) % (ordered.length : Int) :=
    Int.emod_nonneg _ hlz
  have hmodlt : (cur + 1) % (ordered.length : Int) < (ordered.length : Int) :=
    Int.emod_lt_of_pos _ (by exact_mod_cast hlen)
  have hidx : ((cur + 1) % (ordered.length : Int)).toNat < ordered.length := by
    omega
  exact getD_mem hidx ""

lemma findSome?_range_spec {n start : Nat} {l : List String} {p : String → Bool}
    {a : String}
    (h : (List.range n).findSome? (fun i =>
        let cand := l.getD ((start + i) % l.length) ""
        if p cand then some cand else none) = some a) :
    a ∈ l.getD 0 "" :: l ∧ p a = true := by
  obtain ⟨i, _, hi⟩ := List.exists_of_findSome?_eq_some h
  simp only at hi
  by_cases hp : p (l.getD ((start + i) % l.length) "")
  · rw [if_pos hp] at hi
    obtain rfl : l.getD ((start + i) % l.length) "" = a := by injection hi
    constructor
    · by_cases hl : l = []
      · subst hl; simp
      · have : (start + i) % l.length < l.length :=
          Nat.mod_lt _ (List.length_pos.mpr hl)
        exact List.mem_cons_of_mem _ (getD_mem this "")
    · exact hp
  · rw [if_neg hp] at hi
    cases hi

/-- The grouped selection always returns a candidate, and (when there are at
    least two distinct, non-empty candidates) never the contact's last used
    instance. -/
lemma groupedPick_props (ordered : List String) (rot : RotationData)
    (g : GlobalRotationData) (hnd : ordered.Nodup) (hlen : 2 ≤ ordered.length)
    (hempty : "" ∉ ordered) :
    groupedPick ordered rot g ∈ ordered ∧
    ∀ x, rot.lastUsedInstance = some x → groupedPick ordered rot g ≠ x := by
  have hne0 : ordered ≠ [] := by
    intro h
    rw [h] at hlen
    simp at hlen
  unfold groupedPick
  by_cases hcond :
      some (nextGlobalInstanceOf ordered g.lastUsedInstance) ≠ rot.lastUsedInstance ∧
      nextGlobalInstanceOf ordered g.lastUsedInstance ∉ rot.usedInstances
  · rw [if_pos hcond]
    refine ⟨nextGlobalInstanceOf_mem hne0 _, ?_⟩
    intro x hx hcontra
    exact hcond.1 (by rw [hx, hcontra])
  · rw [if_neg hcond]
    set p2 : String → Bool := fun i => decide (some i ≠ rot.lastUsedInstance) with hp2
    set p1 : String → Bool := fun i =>
      decide (some i ≠ rot.lastUsedInstance ∧ i ∉ rot.usedInstances) with hp1
    have hf2 : ∃ s2, ordered.find? p2 = some s2 := by
      cases hfind : ordered.find? p2 with
      | some s => exact ⟨s, rfl⟩
      | none =>
        exfalso
        have hall := List.find?_eq_none.mp hfind
        cases hlast : rot.lastUsedInstance with
        | none =>
          obtain ⟨y, hy⟩ := List.exists_mem_of_ne_nil ordered hne0
          exact hall y hy (by simp [hp2, hlast])
        | some x =>
          obtain ⟨y, hy, hyx⟩ := exists_ne_of_nodup hnd hlen x
          exact hall y hy (by simp [hp2, hlast, hyx])
    obtain ⟨s2, hs2⟩ := hf2
    have hs2mem : s2 ∈ ordered := List.mem_of_find?_eq_some hs2
    have hs2p : some s2 ≠ rot.lastUsedInstance := by
      have := List.find?_some hs2
      simpa [hp2] using this
    have hs2ne : s2 ≠ "" := fun h => hempty (h ▸ hs2mem)
    cases hf1 : ordered.find? p1 with
    | some s1 =>
      have hs1mem : s1 ∈ ordered := List.mem_of_find?_eq_some hf1
      have hs1p : some s1 ≠ rot.lastUsedInstance ∧ s1 ∉ rot.usedInstances := by
        have := List.find?_some hf1
        simpa [hp1] using this
      have hs1ne : s1 ≠ "" := fun h => hempty (h ▸ hs1mem)
      rw [hs2]
      simp only [jsOrOptStr, jsOrStr, if_neg hs1ne]
      refine ⟨hs1mem, ?_⟩
      intro x hx hcontra
      exact hs1p.1 (by rw [hx, hcontra])
    | none =>
      rw [hs2]
      simp only [jsOrOptStr, jsOrStr, if_neg hs2ne]
      refine ⟨hs2mem, ?_⟩
      intro x hx hcontra
      exact hs2p (by rw [hx, hcontra])

/-- The grouped selection always returns one of the (sorted) candidates. -/
lemma groupedPick_mem (ordered : List String) (rot : RotationData)
    (g : GlobalRotationData) (hne0 : ordered ≠ []) :
    groupedPick ordered rot g ∈ ordered := by
  have hd : ordered.getD 0 "" ∈ ordered := getD_mem (List.length_pos.mpr hne0) ""
  have hd2 : ordered[0]?.getD "" ∈ ordered := by
    simpa [List.getD_eq_getElem?_getD] using hd
  unfold groupedPick
  by_cases hcond :
      some (nextGlobalInstanceOf ordered g.lastUsedInstance) ≠ rot.lastUsedInstance ∧
      nextGlobalInstanceOf ordered g.lastUsedInstance ∉ rot.usedInstances
  · rw [if_pos hcond]
    exact nextGlobalInstanceOf_mem hne0 _
  · rw [if_neg hcond]
    cases hf1 : ordered.find? (fun i =>
        decide (some i ≠ rot.lastUsedInstance ∧ i ∉ rot.usedInstances)) with
    | some s1 =>
      have hm1 : s1 ∈ ordered := List.mem_of_find?_eq_some hf1
      by_cases h1 : s1 = ""
      · cases hf2 : ordered.find? (fun i => decide (some i ≠ rot.lastUsedInstance)) with
        | some s2 =>
          have hm2 : s2 ∈ ordered := List.mem_of_find?_eq_some hf2
          by_cases h2 : s2 = "" <;> simp [jsOrOptStr, jsOrStr, h1, h2, hm2, hd, hd2]
        | none => simp [jsOrOptStr, jsOrStr, h1, hd, hd2]
      · simp [jsOrOptStr, jsOrStr, h1, hm1]
    | none =>
      cases hf2 : ordered.find? (fun i => decide (some i ≠ rot.lastUsedInstance)) with
      | some s2 =>
        have hm2 : s2 ∈ ordered := List.mem_of_find?_eq_some hf2
        by_cases h2 : s2 = "" <;> simp [jsOrOptStr, jsOrStr, h2, hm2, hd, hd2]
      | none => simp [jsOrOptStr, jsOrStr, hd, hd2]

/-- Reading a contact key right after the two saves of a selection returns
    the stored (deduplicated, normalised) descriptor. -/
lemma getRot_after_saves {st : ControllerState} {k : String} {d : RotationData}
    {g : GlobalRotationData} (hfail : st.cacheFailing = false) :
    getRotationDataFromCache (saveGlobalRotationData (saveRotationDataToCache st k d) g) k
      = some (readRotationData { d with usedInstances := d.usedInstances.dedup }) := by
  unfold getRotationDataFromCache
  simp [saveGlob_cacheFailing, saveRot_cacheFailing, hfail, saveGlob_cacheRot,
    saveRot_cacheRot]

/-- The contact's `lastUsedInstance` as the grouped path would load it. -/
def contactLast (gid c : String) (st : ControllerState) : Option String :=
  ((getRotationDataFromCache st (groupContactKey gid c)).getD ⟨[], none, 0⟩).lastUsedInstance

lemma string_append_left_cancel {p a b : String} (h : p ++ a = p ++ b) : a = b := by
  have hd := congrArg String.data h
  rw [String.data_append, String.data_append] at hd
  exact String.ext (List.append_cancel_left hd)

lemma groupContactKey_inj {gid c c' : String}
    (h : groupContactKey gid c = groupContactKey gid c') : c = c' := by
  unfold groupContactKey at h
  have h2 : (GROUP_CACHE_KEY_PREFIX ++ ":" ++ gid ++ ":") ++ c
      = (GROUP_CACHE_KEY_PREFIX ++ ":" ++ gid ++ ":") ++ c' := by
    simpa [String.append_assoc] using h
  exact string_append_left_cancel h2

lemma rotationCacheKey_inj {a b : String} (h : rotationCacheKey a = rotationCacheKey b) :
    a = b := by
  unfold rotationCacheKey at h
  exact string_append_left_cancel h

lemma select_cacheFailing (st : ControllerState) (c : String) (insts : List String)
    (gid : String) :
    (selectInstanceForContactInGroup st c insts gid).2.cacheFailing = st.cacheFailing := by
  rw [selectInGroup_eq]
  simp only [saveGlob_cacheFailing, saveRot_cacheFailing]

/-- After a grouped selection for contact `c`, the stored descriptor's
    `lastUsedInstance` is the pick (for non-empty, empty-string-free
    candidate lists and a working cache). -/
lemma contactLast_after_select_self (st : ControllerState) (c : String)
    (insts : List String) (gid : String) (hfail : st.cacheFailing = false)
    (hne : insts ≠ []) (hempty : "" ∉ insts) :
    contactLast gid c (selectInstanceForContactInGroup st c insts gid).2
      = some (selectInstanceForContactInGroup st c insts gid).1 := by
  have hsne : sortStrings insts ≠ [] := by
    intro h
    apply hne
    have hl := length_sortStrings insts
    rw [h] at hl
    exact List.eq_nil_of_length_eq_zero hl.symm
  have hpe2 : groupedPick (sortStrings insts)
      ((getRotationDataFromCache st (groupContactKey gid c)).getD ⟨[], none, 0⟩)
      ((getGlobalRotationData st).getD ⟨none, 0⟩) ≠ "" := by
    intro h
    exact hempty (mem_sortStrings.mp (h ▸ groupedPick_mem _ _ _ hsne))
  unfold contactLast
  simp only [selectInGroup_eq]
  rw [getRot_after_saves hfail]
  simp [groupedNewContactData, readRotationData, jsStrOrNull, hpe2]

/-- A grouped selection for a different contact leaves this contact's
    descriptor untouched. -/
lemma contactLast_after_select_other (st : ControllerState) (c c' : String)
    (insts : List String) (gid : String) (hcc : c' ≠ c) :
    contactLast gid c (selectInstanceForContactInGroup st c' insts gid).2
      = contactLast gid c st := by
  have hk1 : rotationCacheKey (groupContactKey gid c)
      ≠ rotationCacheKey (groupContactKey gid c') :=
    fun h => hcc (groupContactKey_inj (rotationCacheKey_inj h)).symm
  have hk2 : groupContactKey gid c ≠ groupContactKey gid c' :=
    fun h => hcc (groupContactKey_inj h).symm
  unfold contactLast
  rw [selectInGroup_eq]
  simp only [getRotationDataFromCache, saveGlob_cacheFailing, saveRot_cacheFailing,
    saveGlob_cacheRot, saveRot_cacheRot, saveGlob_rotationMemory, saveRot_rotationMemory]
  cases hfail : st.cacheFailing <;> simp [if_neg hk1, if_neg hk2]

/-- A sequence of grouped selections on one group with a fixed candidate
    list; returns the `(contact, pick)` pairs in order. -/
def runGroupCalls (gid : String) (insts : List String) :
    ControllerState → List String → List (String × String) × ControllerState
  | st, [] => ([], st)
  | st, c :: cs =>
    let r := selectInstanceForContactInGroup st c insts gid
    let rest := runGroupCalls gid insts r.2 cs
    ((c, r.1) :: rest.1, rest.2)

lemma runGroupCalls_chain (gid : String) (insts : List String) (c : String)
    (hnd : insts.Nodup) (hlen : 2 ≤ insts.length) (hempty : "" ∉ insts) :
    ∀ (contacts : List String) (st : ControllerState), st.cacheFailing = false →
      (∀ x, contactLast gid c st = some x →
        List.Chain (fun a b => a ≠ b) x
          (((runGroupCalls gid insts st contacts).1.filter
            (fun p => p.1 == c)).map Prod.snd)) ∧
      List.Chain' (fun a b => a ≠ b)
        (((runGroupCalls gid insts st contacts).1.filter
          (fun p => p.1 == c)).map Prod.snd) := by
  have hne0 : insts ≠ [] := by
    intro h
    rw [h] at hlen
    simp at hlen
  intro contacts
  induction contacts with
  | nil =>
    intro st _
    exact ⟨fun x _ => List.Chain.nil, trivial⟩
  | cons c2 cs ih =>
    intro st hfail
    have hfail2 : (selectInstanceForContactInGroup st c2 insts gid).2.cacheFailing = false := by
      rw [select_cacheFailing]
      exact hfail
    obtain ⟨ihc, ihc'⟩ := ih (selectInstanceForContactInGroup st c2 insts gid).2 hfail2
    have hrun : (runGroupCalls gid insts st (c2 :: cs)).1
        = (c2, (selectInstanceForContactInGroup st c2 insts gid).1)
          :: (runGroupCalls gid insts
              (selectInstanceForContactInGroup st c2 insts gid).2 cs).1 := rfl
    by_cases hc : c2 = c
    · subst hc
      have hlast2 : contactLast gid c2 (selectInstanceForContactInGroup st c2 insts gid).2
          = some (selectInstanceForContactInGroup st c2 insts gid).1 :=
        contactLast_after_select_self st c2 insts gid hfail hne0 hempty
      have hne_pick : ∀ x, contactLast gid c2 st = some x →
          (selectInstanceForContactInGroup st c2 insts gid).1 ≠ x := by
        intro x hx
        have hp := groupedPick_props (sortStrings insts)
          ((getRotationDataFromCache st (groupContactKey gid c2)).getD ⟨[], none, 0⟩)
          ((getGlobalRotationData st).getD ⟨none, 0⟩)
          (nodup_sortStrings hnd)
          (by rw [length_sortStrings]; exact hlen)
          (fun hmem => hempty (mem_sortStrings.mp hmem))
        have heq : (selectInstanceForContactInGroup st c2 insts gid).1
            = groupedPick (sortStrings insts)
              ((getRotationDataFromCache st (groupContactKey gid c2)).getD ⟨[], none, 0⟩)
              ((getGlobalRotationData st).getD ⟨none, 0⟩) := by
          rw [selectInGroup_eq]
        rw [heq]
        exact hp.2 x hx
      rw [hrun]
      rw [List.filter_cons_of_pos (by simp)]
      rw [List.map_cons]
      constructor
      · intro x hx
        exact List.Chain.cons (Ne.symm (hne_pick x hx))
          (ihc (selectInstanceForContactInGroup st c2 insts gid).1 hlast2)
      · exact ihc (selectInstanceForContactInGroup st c2 insts gid).1 hlast2
    · have hpres : contactLast gid c (selectInstanceForContactInGroup st c2 insts gid).2
          = contactLast gid c st := contactLast_after_select_other st c c2 insts gid hc
      rw [hrun]
      rw [List.filter_cons_of_neg (by simp [hc])]
      constructor
      · intro x hx
        exact ihc x (by rw [hpres]; exact hx)
      · exact ihc'

/-- C5. For any sequence of sequential grouped selections on a group with a
    fixed candidate list of at least two distinct (non-empty-named)
    instances and a working rotation store, the picks returned for any
    fixed contact `c` never repeat consecutively. -/
theorem no_consecutive_repeat_for_contact (gid : String) (insts : List String)
    (st : ControllerState) (contacts : List String) (c : String)
    (hnd : insts.Nodup) (hlen : 2 ≤ insts.length) (hempty : "" ∉ insts)
    (hfail : st.cacheFailing = false) :
    List.Chain' (fun a b => a ≠ b)
      (((runGroupCalls gid insts st contacts).1.filter
        (fun p => p.1 == c)).map Prod.snd) :=
  (runGroupCalls_chain gid insts c hnd hlen hempty contacts st hfail).2

/-- Closed instance of C5: four calls for contact `7` interleaved with one
    for contact `8` over candidates `[a, b]` yield alternating picks. -/
theorem no_consecutive_repeat_for_contact_witness :
    (["a", "b"] : List String).Nodup ∧
    List.Chain' (fun a b => a ≠ b)
      (((runGroupCalls "g" ["a", "b"] emptyState ["7", "8", "7", "7"]).1.filter
        (fun p => p.1 == "7")).map Prod.snd) :=
  ⟨by decide,
   no_consecutive_repeat_for_contact "g" ["a", "b"] emptyState ["7", "8", "7", "7"] "7"
     (by decide) (by decide) (by decide) rfl⟩

/-! ## Instance groups (InstanceGroupService) and the balanced-send
    error path -/

/-- A persisted instance group record. -/
structure InstanceGroup where
  id : String
  name : String
  «alias» : String
  enabled : Bool
  instances : List String
deriving DecidableEq

/-- The exception classes thrown by the service layer. -/
inductive EvoError
  | notFound (msg : String)
  | badRequest (msg : String)
  | internalServerError (msg : String)
deriving DecidableEq

/-- Modelled from the spec: the HTTP status mapping of the `@exceptions`
    classes, whose source is not part of this tree — the spec fixes
    "Error status codes: 400 validation, 401 auth, 404 missing,
    500 internal" and maps NotFound to 404, ValidationError/Conflict to
    400, Internal to 500. -/
def httpStatus : EvoError → Nat
  | .notFound _ => 404
  | .badRequest _ => 400
  | .internalServerError _ => 500

/-- `findUnique({ where: { id, enabled: true } })` over the group table. -/
def findGroupByIdEnabled (groups : List InstanceGroup) (groupId : String) :
    Option InstanceGroup :=
  groups.find? (fun g => g.id == groupId && g.enabled)

/-- `findUnique({ where: { alias } })` plus the NotFound throw of
    `InstanceGroupService.findByAlias`. -/
def findByAlias (groups : List InstanceGroup) (a : String) :
    Except EvoError InstanceGroup :=
  match groups.find? (fun g => g.«alias» == a) with
  | some g => .ok g
  | none => .error (.notFound "Instance group not found")

/-- `InstanceGroupService.getActiveInstances`: the group must exist *and*
    be enabled (a disabled group falls into the NotFound branch); the
    members are filtered by connection state, and an empty result is a
    BadRequest. `connState name` models
    `waMonitor.waInstances[name]?.connectionStatus?.state === 'open'`. -/
def getActiveInstances (groups : List InstanceGroup) (connState : String → Bool)
    (groupId : String) : Except EvoError (List String) :=
  match findGroupByIdEnabled groups groupId with
  | none => .error (.notFound "Instance group not found or disabled")
  | some g =>
    let activeInstances := g.instances.filter connState
    if activeInstances.length = 0 then
      .error (.badRequest "No active instances found in the group")
    else .ok activeInstances

/-- The error-relevant prefix of
    `SendMessageController.sendTextWithGroupBalancing`: resolve the alias,
    fetch the active instances and select the instance; thrown errors
    propagate unchanged to the HTTP layer (the catch re-throws). -/
def sendTextWithGroupBalancing_select (groups : List InstanceGroup)
    (connState : String → Bool) (st : ControllerState) (a contact : String) :
    Except EvoError (String × ControllerState) :=
  match findByAlias groups a with
  | .error e => .error e
  | .ok group =>
    match getActiveInstances groups connState group.id with
    | .error e => .error e
    | .ok groupInstances =>
      if groupInstances.length = 0 then
        .error (.badRequest "Nenhuma instância ativa encontrada no grupo especificado")
      else .ok (selectInstanceForContactInGroup st contact groupInstances group.id)

/-- C3 counterexample: a balanced send against a *disabled* group whose
    only member is connected fails with the NotFoundException
    "Instance group not found or disabled", mapped to HTTP 404 — not with a
    400. -/
theorem disabled_group_counterexample :
    (sendTextWithGroupBalancing_select
        [⟨"g1", "G", "g", false, ["a"]⟩] (fun _ => true) emptyState "g" "123")
      = .error (.notFound "Instance group not found or disabled") ∧
    (httpStatus (.notFound "Instance group not found or disabled") = 404) := by
  constructor
  · rfl
  · rfl

/-- C3 amended: when the alias resolves to a group that is disabled (and no
    other group shares its id), the balanced send fails with
    NotFoundException mapped to 404 — the same status as an unknown group;
    only an enabled group with no open member yields a 400. -/
theorem disabled_group_yields_404 (groups : List InstanceGroup)
    (connState : String → Bool) (st : ControllerState) (a contact : String)
    (g : InstanceGroup)
    (hfind : findByAlias groups a = .ok g)
    (hdis : ∀ g2 ∈ groups, g2.id = g.id → g2.enabled = false) :
    sendTextWithGroupBalancing_select groups connState st a contact
      = .error (.notFound "Instance group not found or disabled") ∧
    httpStatus (.notFound "Instance group not found or disabled") = 404 := by
  refine ⟨?_, rfl⟩
  have hnone : findGroupByIdEnabled groups g.id = none := by
    apply List.find?_eq_none.mpr
    intro g2 hg2
    simp only [Bool.and_eq_true, beq_iff_eq, not_and]
    intro hid
    simp [hdis g2 hg2 hid]
  simp only [sendTextWithGroupBalancing_select, hfind, getActiveInstances, hnone]

/-- Closed instance of the C3 amended theorem. -/
theorem disabled_group_yields_404_witness :
    sendTextWithGroupBalancing_select [⟨"g2", "H", "h", false, ["a"]⟩]
        (fun _ => true) emptyState "h" "55"
      = .error (.notFound "Instance group not found or disabled") :=
  (disabled_group_yields_404 [⟨"g2", "H", "h", false, ["a"]⟩] (fun _ => true) emptyState
    "h" "55" ⟨"g2", "H", "h", false, ["a"]⟩ rfl (by decide)).1

/-! ## External webhook dispatcher (ExternalWebhookService) -/

/-- `authentication` record of a webhook subscriber. -/
structure AuthenticationConfig where
  type : String
  token : Option String
  username : Option String
  password : Option String
  headerName : Option String
  jwtSecret : Option String
deriving DecidableEq

/-- `securityConfig` of a subscriber (signature fields; the IP-whitelist and
    rate-limit fields are never read on the dispatch path and are omitted). -/
structure SecurityConfig where
  enableSignatureValidation : Bool
  signatureSecret : Option String
  signatureHeader : Option String
  signatureAlgorithm : Option String
deriving DecidableEq

/-- `retryConfig` of a subscriber. `jitterFactor` only perturbs the sleep
    length (floating point, `Math.random`) and never the number of requests;
    it is omitted together with the sleep lengths. -/
structure RetryConfig where
  maxAttempts : Option Nat
  initialDelaySeconds : Option Nat
  useExponentialBackoff : Option Bool
  maxDelaySeconds : Option Nat
  nonRetryableStatusCodes : Option (List Nat)
deriving DecidableEq

/-- A webhook subscriber record as read by the dispatch path. -/
structure ExternalWebhook where
  id : String
  name : String
  url : String
  enabled : Bool
  events : List String
  headers : List (String × String)
  authentication : Option AuthenticationConfig
  securityConfig : Option SecurityConfig
  retryConfig : Option RetryConfig
  timeout : Option Nat
deriving DecidableEq

/-- A header value: a plain string, or the `Bearer <HS256 jwt>` value whose
    cryptographic rendering is kept symbolic (the claims below depend only
    on which header names are set). -/
inductive HeaderValue
  | str (s : String)
  | jwtBearer (secret : String)
deriving DecidableEq

/-- `Buffer.from(s).toString('base64')` over the UTF-8 bytes. -/
def base64Chars : List Char :=
  "ABCDEFGHIJKLMNOPQRSTUVWXYZabcdefghijklmnopqrstuvwxyz0123456789+/".data

def base64EncodeBytes : List Nat → List Char
  | [] => []
  | [b1] =>
    let n := b1 * 65536
    [base64Chars.getD (n / 262144 % 64) 'A', base64Chars.getD (n / 4096 % 64) 'A',
     '=', '=']
  | [b1, b2] =>
    let n := b1 * 65536 + b2 * 256
    [base64Chars.getD (n / 262144 % 64) 'A', base64Chars.getD (n / 4096 % 64) 'A',
     base64Chars.getD (n / 64 % 64) 'A', '=']
  | b1 :: b2 :: b3 :: rest =>
    let n := b1 * 65536 + b2 * 256 + b3
    base64Chars.getD (n / 262144 % 64) 'A' :: base64Chars.getD (n / 4096 % 64) 'A' ::
      base64Chars.getD (n / 64 % 64) 'A' :: base64Chars.getD (n % 64) 'A' ::
      base64EncodeBytes rest

/-- UTF-8 bytes of one code point. -/
def utf8Bytes (c : Char) : List Nat :=
  let n := c.toNat
  if n < 128 then [n]
  else if n < 2048 then [192 + n / 64, 128 + n % 64]
  else if n < 65536 then [224 + n / 4096, 128 + n / 64 % 64, 128 + n % 64]
  else [240 + n / 262144, 128 + n / 4096 % 64, 128 + n / 64 % 64, 128 + n % 64]

def base64Encode (s : String) : String :=
  String.mk (base64EncodeBytes (List.flatten (s.data.map utf8Bytes)))

example : base64Encode "user:pass" = "dXNlcjpwYXNz" := by decide

/-- JS object property assignment on the headers map. -/
def setHeader (h : String → Option HeaderValue) (name : String) (v : HeaderValue) :
    String → Option HeaderValue :=
  fun k => if k = name then some v else h k

/-- The `{ ...webhook.headers }` copy, as a lookup map. -/
def staticHeaders (l : List (String × String)) : String → Option HeaderValue :=
  fun k => (l.find? (fun p => p.1 == k)).map (fun p => .str p.2)

/-- `ExternalWebhookService.configureAuthentication`. -/
def configureAuthentication (headers : String → Option HeaderValue)
    (authConfig : Option AuthenticationConfig) : String → Option HeaderValue :=
  match authConfig with
  | none => headers
  | some cfg =>
    if cfg.type = "none" then headers
    else if cfg.type = "bearer" then
      if jsTruthyStr cfg.token then
        setHeader headers "Authorization" (.str ("Bearer " ++ cfg.token.getD ""))
      else headers
    else if cfg.type = "basic" then
      if jsTruthyStr cfg.username && jsTruthyStr cfg.password then
        setHeader headers "Authorization"
          (.str ("Basic " ++ base64Encode (cfg.username.getD "" ++ ":" ++ cfg.password.getD "")))
      else headers
    else if cfg.type = "api_key" then
      if jsTruthyStr cfg.token && jsTruthyStr cfg.headerName then
        setHeader headers (cfg.headerName.getD "") (.str (cfg.token.getD ""))
      else headers
    else if cfg.type = "jwt" then
      if jsTruthyStr cfg.jwtSecret then
        setHeader headers "Authorization" (.jwtBearer (cfg.jwtSecret.getD ""))
      else headers
    else headers

/-- The headers of the outbound POST built by
    `ExternalWebhookService.executeWebhookRequest`:
    `{ 'Content-Type': 'application/json', ...headers }` where `headers` is
    the static map mutated by `configureAuthentication`. Nothing else is
    added before the request is handed to the retry loop. -/
def executeWebhookRequestHeaders (w : ExternalWebhook) : String → Option HeaderValue :=
  let headers := configureAuthentication (staticHeaders w.headers) w.authentication
  fun k =>
    match headers k with
    | some v => some v
    | none => if k = "Content-Type" then some (.str "application/json") else none

/-- C1. The signature header is never sent: the outbound headers built by
    `executeWebhookRequest` do not depend on `securityConfig` at all
    (`generateWebhookSignature` exists in the source but is never invoked on
    the dispatch path), and for the subscriber configured exactly as the
    repository's own documentation prescribes — signature validation
    enabled, secret `0123456789abcdef`, header `X-Webhook-Signature`,
    algorithm sha256 — no `X-Webhook-Signature` header is present in the
    request. This contradicts the documented outbound format. -/
theorem signature_header_never_sent (w : ExternalWebhook)
    (sc1 sc2 : Option SecurityConfig) (name : String) :
    executeWebhookRequestHeaders { w with securityConfig := sc1 } name
      = executeWebhookRequestHeaders { w with securityConfig := sc2 } name ∧
    executeWebhookRequestHeaders
      { id := "w1", name := "doc-webhook", url := "https://example.com/hook"
        enabled := true, events := [], headers := []
        authentication := some ⟨"bearer", some "tok", none, none, none, none⟩
        securityConfig := some ⟨true, some "0123456789abcdef",
          some "X-Webhook-Signature", some "sha256"⟩
        retryConfig := none, timeout := none }
      "X-Webhook-Signature" = none ∧
    executeWebhookRequestHeaders
      { id := "w1", name := "doc-webhook", url := "https://example.com/hook"
        enabled := true, events := [], headers := []
        authentication := some ⟨"bearer", some "tok", none, none, none, none⟩
        securityConfig := some ⟨true, some "0123456789abcdef",
          some "X-Webhook-Signature", some "sha256"⟩
        retryConfig := none, timeout := none }
      "Authorization" = some (.str "Bearer tok") := by
  exact ⟨rfl, by decide, by decide⟩

/-! ### Circuit breaker -/

inductive CBState
  | closed
  | opened
  | halfOpen
deriving DecidableEq

/-- Per-subscriber circuit-breaker record (times in milliseconds). -/
structure CircuitBreakerRecord where
  failures : Nat
  lastFailureTime : Nat
  state : CBState
deriving DecidableEq

def CIRCUIT_BREAKER_THRESHOLD : Nat := 5
def CIRCUIT_BREAKER_TIMEOUT : Nat := 60000

/-- `ExternalWebhookService.canExecuteWebhook`: returns the gate decision
    and the (possibly initialised or OPEN→HALF_OPEN mutated) record. -/
def canExecuteWebhook (rec : Option CircuitBreakerRecord) (now : Nat) :
    Bool × CircuitBreakerRecord :=
  match rec with
  | none => (true, ⟨0, 0, .closed⟩)
  | some cb =>
    match cb.state with
    | .closed => (true, cb)
    | .opened =>
      if now - cb.lastFailureTime > CIRCUIT_BREAKER_TIMEOUT then
        (true, { cb with state := .halfOpen })
      else (false, cb)
    | .halfOpen => (true, cb)

/-- `ExternalWebhookService.recordWebhookSuccess`: resets only an existing
    record. -/
def recordWebhookSuccess (rec : Option CircuitBreakerRecord) :
    Option CircuitBreakerRecord :=
  rec.map (fun _ => ⟨0, 0, .closed⟩)

/-- `ExternalWebhookService.recordWebhookFailure`: bump the failure count,
    stamp the time, open the circuit at the threshold. -/
def recordWebhookFailure (rec : Option CircuitBreakerRecord) (now : Nat) :
    CircuitBreakerRecord :=
  let cb := rec.getD ⟨0, 0, .closed⟩
  let f := cb.failures + 1
  ⟨f, now, if f ≥ CIRCUIT_BREAKER_THRESHOLD then .opened else cb.state⟩

/-- Outcome of one `sendWebhook` invocation for a subscriber, after the
    gate: delivered successfully, failed (any throw from the retry loop),
    or skipped by the event/instance filters (no HTTP, nothing recorded). -/
inductive DispatchOutcome
  | success
  | failure
  | skipped
deriving DecidableEq

/-- One sequential `sendWebhook` pass over the circuit breaker: gate first;
    if denied nothing is executed; otherwise the outcome is recorded
    (filter skips record nothing). The returned Bool is whether an HTTP
    delivery was executed. -/
def sendWebhookStep (rec : Option CircuitBreakerRecord) (now : Nat)
    (outcome : DispatchOutcome) : Bool × Option CircuitBreakerRecord :=
  let gate := canExecuteWebhook rec now
  if gate.1 then
    match outcome with
    | .skipped => (false, some gate.2)
    | .success => (true, recordWebhookSuccess (some gate.2))
    | .failure => (true, some (recordWebhookFailure (some gate.2) now))
  else (false, some gate.2)

/-- A sequence of sequential dispatches for one subscriber. -/
def runDispatch : Option CircuitBreakerRecord → List (Nat × DispatchOutcome) →
    List Bool × Option CircuitBreakerRecord
  | rec, [] => ([], rec)
  | rec, (t, o) :: rest =>
    let s := sendWebhookStep rec t o
    let r := runDispatch s.2 rest
    (s.1 :: r.1, r.2)

lemma sendWebhookStep_denied {cb : CircuitBreakerRecord} {t : Nat}
    {o : DispatchOutcome} (hs : cb.state = .opened)
    (ht : t ≤ cb.lastFailureTime + CIRCUIT_BREAKER_TIMEOUT) :
    sendWebhookStep (some cb) t o = (false, some cb) := by
  have hgate : canExecuteWebhook (some cb) t = (false, cb) := by
    simp only [canExecuteWebhook, hs]
    rw [if_neg (by omega)]
  simp [sendWebhookStep, hgate]

/-- C7. Circuit-breaker safety and the post-cooldown probe, for the
    sequential dispatch model: (a) a failure that reaches the threshold
    opens the circuit and stamps `lastFailureTime`; (b) while the circuit
    is open, every dispatch whose time is within COOLDOWN (60 s) of
    `lastFailureTime` executes no HTTP delivery and leaves the record
    unchanged — over a whole trace, no delivery happens; (c) the first
    dispatch strictly after the cooldown is allowed through (HALF_OPEN),
    and its outcome immediately re-resolves the breaker: a failed probe
    re-opens it with a fresh `lastFailureTime` (so the next dispatch inside
    the new cooldown is denied again — exactly one probe), a successful
    probe closes it. -/
theorem circuit_breaker_cooldown (rec : Option CircuitBreakerRecord)
    (cb : CircuitBreakerRecord) (now : Nat)
    (times : List (Nat × DispatchOutcome)) :
    (5 ≤ (recordWebhookFailure rec now).failures →
      (recordWebhookFailure rec now).state = .opened ∧
      (recordWebhookFailure rec now).lastFailureTime = now) ∧
    (cb.state = .opened →
      (∀ p ∈ times, p.1 ≤ cb.lastFailureTime + CIRCUIT_BREAKER_TIMEOUT) →
      (∀ b ∈ (runDispatch (some cb) times).1, b = false) ∧
      (runDispatch (some cb) times).2 = some cb) ∧
    (cb.state = .opened → cb.lastFailureTime + CIRCUIT_BREAKER_TIMEOUT < now →
      5 ≤ cb.failures →
      (sendWebhookStep (some cb) now .failure
        = (true, some ⟨cb.failures + 1, now, .opened⟩)) ∧
      (sendWebhookStep (some cb) now .success = (true, some ⟨0, 0, .closed⟩))) := by
  refine ⟨?_, ?_, ?_⟩
  · intro h
    have h2 : (rec.getD ⟨0, 0, .closed⟩).failures + 1 ≥ CIRCUIT_BREAKER_THRESHOLD := by
      simpa [recordWebhookFailure, CIRCUIT_BREAKER_THRESHOLD] using h
    simp [recordWebhookFailure, h2]
  · intro hs
    induction times with
    | nil => intro _; exact ⟨fun b hb => absurd hb (by simp [runDispatch]), rfl⟩
    | cons p rest ih =>
      intro hall
      have hstep : sendWebhookStep (some cb) p.1 p.2 = (false, some cb) :=
        sendWebhookStep_denied hs (hall p (by simp))
      have hrest := ih (fun q hq => hall q (by simp [hq]))
      have hrun : runDispatch (some cb) (p :: rest)
          = ((sendWebhookStep (some cb) p.1 p.2).1 :: (runDispatch
              (sendWebhookStep (some cb) p.1 p.2).2 rest).1,
             (runDispatch (sendWebhookStep (some cb) p.1 p.2).2 rest).2) := rfl
      constructor
      · intro b hb
        rw [hrun, hstep] at hb
        simp only [List.mem_cons] at hb
        rcases hb with hb | hb
        · exact hb
        · exact hrest.1 b hb
      · rw [hrun, hstep]
        exact hrest.2
  · intro hs hlt hf
    have hgate : canExecuteWebhook (some cb) now
        = (true, { cb with state := .halfOpen }) := by
      simp only [canExecuteWebhook, hs]
      rw [if_pos (by omega)]
    have h6 : cb.failures + 1 ≥ CIRCUIT_BREAKER_THRESHOLD := by
      simp only [CIRCUIT_BREAKER_THRESHOLD]
      omega
    constructor
    · simp [sendWebhookStep, hgate, recordWebhookFailure, h6]
    · simp [sendWebhookStep, hgate, recordWebhookSuccess]

/-- Closed instance of C7: reaching the threshold opens the breaker; three
    dispatches inside the cooldown execute nothing; a failed probe after
    the cooldown executes and re-opens the breaker. -/
theorem circuit_breaker_cooldown_witness :
    ((recordWebhookFailure (some ⟨4, 100, .closed⟩) 1000).state = .opened) ∧
    (∀ b ∈ (runDispatch (some ⟨5, 1000, .opened⟩)
        [(2000, .failure), (30000, .success), (61000, .skipped)]).1, b = false) ∧
    (sendWebhookStep (some ⟨5, 1000, .opened⟩) 61001 .failure
      = (true, some ⟨6, 61001, .opened⟩)) := by
  have h1 := (circuit_breaker_cooldown (some ⟨4, 100, .closed⟩) ⟨5, 1000, .opened⟩
    1000 []).1
  have h2 := (circuit_breaker_cooldown (some ⟨4, 100, .closed⟩) ⟨5, 1000, .opened⟩ 1000
    [(2000, .failure), (30000, .success), (61000, .skipped)]).2.1
  have h3 := (circuit_breaker_cooldown (some ⟨4, 100, .closed⟩) ⟨5, 1000, .opened⟩
    61001 []).2.2
  exact ⟨(h1 (by decide)).1, (h2 rfl (by decide)).1, (h3 rfl (by decide) (by decide)).1⟩

/-! ### Retry loop -/

/-- Result of one HTTP POST attempt: resolved (2xx), or rejected with an
    optional response status (absent for timeouts and network errors). -/
inductive AttemptResult
  | success
  | failure (statusCode : Option Nat)
deriving DecidableEq

/-- JS `x || d` on numbers (0 is falsy). -/
def jsOrNat (o : Option Nat) (d : Nat) : Nat :=
  match o with
  | some n => if n = 0 then d else n
  | none => d

/-- `statusCode && nonRetryableStatusCodes.includes(statusCode)`. -/
def isNonRetryableStatus (codes : List Nat) (r : AttemptResult) : Bool :=
  match r with
  | .success => false
  | .failure none => false
  | .failure (some s) => decide (s ≠ 0) && decide (s ∈ codes)

/-- The `while (attempts < maxRetryAttempts)` loop of
    `retryWebhookRequest`, with `fuel = maxRetryAttempts − attempts`;
    `resp k` is the outcome of the (k+1)-th POST. Returns the number of
    requests issued and whether the delivery succeeded. The inter-attempt
    sleep only delays the next request and is not modelled. -/
def retryLoop (codes : List Nat) (resp : Nat → AttemptResult) :
    Nat → Nat → Nat × Bool
  | attempts, 0 => (attempts, false)
  | attempts, fuel + 1 =>
    match resp attempts with
    | .success => (attempts + 1, true)
    | .failure st =>
      if isNonRetryableStatus codes (.failure st) then (attempts + 1, false)
      else if fuel = 0 then (attempts + 1, false)
      else retryLoop codes resp (attempts + 1) fuel

/-- `ExternalWebhookService.retryWebhookRequest` (request counting). -/
def retryWebhookRequest (cfg : Option RetryConfig) (resp : Nat → AttemptResult) :
    Nat × Bool :=
  let maxRetryAttempts := jsOrNat (cfg.bind (fun c => c.maxAttempts)) 3
  let nonRetryableStatusCodes :=
    (cfg.bind (fun c => c.nonRetryableStatusCodes)).getD [400, 401, 403, 404, 422]
  retryLoop nonRetryableStatusCodes resp 0 maxRetryAttempts

example :
    retryWebhookRequest (some ⟨some 3, some 1, some true, none, some [404]⟩)
      (fun i => if i = 0 then .failure (some 500) else .failure (some 404)) = (2, false) := by
  decide
example :
    retryWebhookRequest none (fun _ => .failure (some 503)) = (3, false) := by decide
example :
    retryWebhookRequest none (fun _ => .failure (some 404)) = (1, false) := by decide

lemma retryLoop_spec (codes : List Nat) (resp : Nat → AttemptResult) :
    ∀ (fuel attempts : Nat),
      attempts ≤ (retryLoop codes resp attempts fuel).1 ∧
      (retryLoop codes resp attempts fuel).1 ≤ attempts + fuel ∧
      (∀ i, attempts ≤ i → i + 1 < (retryLoop codes resp attempts fuel).1 →
        isNonRetryableStatus codes (resp i) = false) := by
  intro fuel
  induction fuel with
  | zero =>
    intro attempts
    exact ⟨Nat.le_refl _, Nat.le_refl _, fun i hi hlt => by simp [retryLoop] at hlt; omega⟩
  | succ f ih =>
    intro attempts
    cases hr : resp attempts with
    | success =>
      refine ⟨?_, ?_, ?_⟩
      · simp [retryLoop, hr]
      · simp [retryLoop, hr]
      · intro i hi hlt
        simp [retryLoop, hr] at hlt
        omega
    | failure st =>
      by_cases hnr : isNonRetryableStatus codes (.failure st) = true
      · refine ⟨?_, ?_, ?_⟩
        · simp [retryLoop, hr, hnr]
        · simp [retryLoop, hr, hnr]
        · intro i hi hlt
          simp [retryLoop, hr, hnr] at hlt
          omega
      · by_cases hf : f = 0
        · refine ⟨?_, ?_, ?_⟩
          · simp [retryLoop, hr, hnr, hf]
          · simp [retryLoop, hr, hnr, hf]
          · intro i hi hlt
            simp [retryLoop, hr, hnr, hf] at hlt
            omega
        · have hstep : retryLoop codes resp attempts (f + 1)
              = retryLoop codes resp (attempts + 1) f := by
            simp [retryLoop, hr, hnr, hf]
          obtain ⟨ih1, ih2, ih3⟩ := ih (attempts + 1)
          refine ⟨?_, ?_, ?_⟩
          · rw [hstep]; omega
          · rw [hstep]; omega
          · intro i hi hlt
            rw [hstep] at hlt
            by_cases hieq : i = attempts
            · subst hieq
              rw [hr]
              exact Bool.not_eq_true _ ▸ (by simpa using hnr)
            · exact ih3 i (by omega) hlt

/-- C8. Per delivery, the retry loop issues at most
    `retryConfig.maxAttempts` HTTP POSTs (default 3), and a response whose
    status is in `nonRetryableStatusCodes` is never followed by another
    request: every request except the last one had a retryable outcome. In
    particular a non-retryable status on the first attempt yields exactly
    one request. -/
theorem retry_request_bound (cfg : Option RetryConfig) (resp : Nat → AttemptResult)
    (i : Nat) :
    (retryWebhookRequest cfg resp).1 ≤ jsOrNat (cfg.bind (fun c => c.maxAttempts)) 3 ∧
    (i + 1 < (retryWebhookRequest cfg resp).1 →
      isNonRetryableStatus
        ((cfg.bind (fun c => c.nonRetryableStatusCodes)).getD [400, 401, 403, 404, 422])
        (resp i) = false) := by
  obtain ⟨h1, h2, h3⟩ := retryLoop_spec
    ((cfg.bind (fun c => c.nonRetryableStatusCodes)).getD [400, 401, 403, 404, 422]) resp
    (jsOrNat (cfg.bind (fun c => c.maxAttempts)) 3) 0
  exact ⟨by simpa [retryWebhookRequest] using h2,
    fun hlt => h3 i (Nat.zero_le i) (by simpa [retryWebhookRequest] using hlt)⟩

/-- Closed instance of C8: with `maxAttempts = 3` and `404` non-retryable, a
    retryable 500 followed by a 404 issues exactly two requests (within the
    bound), and the first, non-final request was retryable. -/
theorem retry_request_bound_witness :
    (retryWebhookRequest (some ⟨some 3, some 1, some true, none, some [404]⟩)
      (fun k => if k = 0 then .failure (some 500) else .failure (some 404))).1 ≤ 3 ∧
    isNonRetryableStatus [404]
      ((fun k => if k = 0 then .failure (some 500) else .failure (some 404) :
        Nat → AttemptResult) 0) = false := by
  have h := retry_request_bound (some ⟨some 3, some 1, some true, none, some [404]⟩)
    (fun k => if k = 0 then .failure (some 500) else .failure (some 404)) 0
  exact ⟨h.1, h.2 (by decide)⟩
